import Mathlib

/-!
# Verification of `distance_metric_learning.py`

Shallow embedding of the similarity-search core of the repository
(`src/distance_metric_learning.py`) and proofs about it.

Modelling conventions, chosen to stay faithful to the Python source:

* A pandas `DataFrame` becomes `DataFrame`: a list of feature-column names
  plus a list of rows; each row has an `id` and a partial valuation of the
  columns (`Option ℚ`; `none` models a null/NaN cell).  The `id` column of
  the real frame is carried separately; it is a string and never null, and
  no class token ever matches it, so this loses nothing.
* Numeric cells are rationals.  `StandardScaler` standardizes a column to
  `(x - mean) / sqrt variance`; the euclidean distance then squares each
  standardized difference, so every distance the program sorts by is the
  square root of a *rational* quantity `Σ (x - y)^2 * w^2 / variance`.
  Since `Real.sqrt` is strictly monotone on nonnegative arguments and is
  zero exactly at zero, sorting by the rational squared distance produces
  the same ranking as the source's sort by the square-rooted distance, and
  a squared distance is zero exactly when the source's distance is zero.
  The lemmas `sqrt_le_sqrt_iff_of_nonneg` and `sqrt_eq_zero_iff_of_nonneg`
  below record this justification.  All ranking functions therefore carry
  the squared distance.
* `sklearn`'s `StandardScaler.fit_transform` rejects NaN input, so
  standardizing a column set fails when any row has a null in one of those
  columns; this is the `scalerError` outcome.  When a column is constant
  the scaler divides by 1 instead of the zero deviation, making every
  standardized entry 0; in ℚ the corresponding squared term is
  `0 / 0 = 0`, the same contribution.
* Python exceptions become an `Except DMLError` result:
  `configError` for the unknown-metric `ValueError`, `invalidRow` for
  `ValueError("Invalid sound data")`, `notFound` for the `IndexError` of
  `.iloc[0]` on an empty selection, `keyError` for a missing dict key,
  `typeError` for `len(None)`, `popEmpty` for `set.pop` on an empty set.
* Python's stable `list.sort(key=...)` becomes `List.insertionSort`,
  which is likewise stable (`orderedInsert` places an element before the
  first element it compares `≤` to, so earlier elements stay before later
  elements with an equal key — the same output as any stable ascending
  sort).  Python `set.pop()` removes an arbitrary element; the embedding
  models the remaining set as a list and pops its head, one admissible
  choice.  Python `set.update` becomes a duplicate-free list union.
-/

/-- Errors raised by the Python code, by the library calls it makes, and by
the runtime itself. -/
inductive DMLError where
  | configError (metric : String)
  | scalerError
  | notFound
  | invalidRow
  | keyError (key : String)
  | typeError
  | popEmpty
deriving DecidableEq

/-- One record of the feature table: the value of the `id` column plus a
partial valuation of the feature columns (`none` models a null cell). -/
structure Row where
  id : String
  val : String → Option ℚ

/-- The feature table: the ordered list of feature-column names and the
ordered list of rows (`pd.json_normalize` output). -/
structure DataFrame where
  cols : List String
  rows : List Row

/-- `leadMatch hay needle` is true when `needle` is an initial segment of
`hay` (character lists). -/
def leadMatch : List Char → List Char → Bool
  | _, [] => true
  | [], _ :: _ => false
  | a :: as, b :: bs => a == b && leadMatch as bs

/-- `hasTok needle hay` is true when `needle` occurs contiguously inside
`hay` (character lists). -/
def hasTok (needle : List Char) : List Char → Bool
  | [] => leadMatch [] needle
  | h :: t => leadMatch (h :: t) needle || hasTok needle t

/-- Python's `needle in hay` on strings: substring containment. -/
def strHasTok (hay needle : String) : Bool :=
  hasTok needle.toList hay.toList

/-- `[col for col in df.columns if clss in col]` (lines 24 and 65 of the
source): the columns whose name contains the class token. -/
def classColumns (df : DataFrame) (clss : String) : List String :=
  df.cols.filter (fun c => strHasTok c clss)

/-- The values of column `c` down the table, with nulls read as 0 (only
used after the scaler has established there are none). -/
def colVals (df : DataFrame) (c : String) : List ℚ :=
  df.rows.map (fun r => (r.val c).getD 0)

/-- Column mean, as computed by `StandardScaler` (population statistics). -/
def colMean (df : DataFrame) (c : String) : ℚ :=
  (colVals df c).sum / (df.rows.length : ℚ)

/-- Column population variance, the square of the scaler's standard
deviation. -/
def colVar (df : DataFrame) (c : String) : ℚ :=
  ((colVals df c).map (fun x => (x - colMean df c) ^ 2)).sum / (df.rows.length : ℚ)

/-- Whether row `r` has a null in one of the columns `cs`
(`row.isnull().values.any()` restricted to `cs`). -/
def rowHasNull (cs : List String) (r : Row) : Bool :=
  cs.any (fun c => (r.val c).isNone)

/-- Whether any row of the table has a null in one of the columns `cs`;
when true, `StandardScaler.fit_transform` on those columns raises. -/
def anyNullIn (df : DataFrame) (cs : List String) : Bool :=
  df.rows.any (fun r => rowHasNull cs r)

/-- `df[df["id"] == identifier].iloc[0]`: the first row carrying the
identifier, if any. -/
def firstRowWithId (df : DataFrame) (identifier : String) : Option Row :=
  df.rows.find? (fun r => r.id == identifier)

/-- Squared distance between `ref` and `row` over the standardized columns
`cols`: each standardized difference is `(x - y) / sqrt var`, so its
square is `(x - y) ^ 2 / var`. -/
def plainSqDist (cols : List String) (df : DataFrame) (ref row : Row) : ℚ :=
  (cols.map (fun c =>
    ((ref.val c).getD 0 - (row.val c).getD 0) ^ 2 / colVar df c)).sum

/-- Squared weighted distance (source line 90-91): the standardized
difference is scaled by the column weight before squaring, so the square
is `((x - y) * w) ^ 2 / var`. -/
def weightedSqDist (cols : List String) (df : DataFrame) (ref : Row)
    (w : String → ℚ) (row : Row) : ℚ :=
  (cols.map (fun c =>
    (((ref.val c).getD 0 - (row.val c).getD 0) * w c) ^ 2 / colVar df c)).sum

/-- Squared distance over raw (unstandardized) columns, used by the
classification mode. -/
def rawSqDist (cols : List String) (ref row : Row) : ℚ :=
  (cols.map (fun c =>
    ((ref.val c).getD 0 - (row.val c).getD 0) ^ 2)).sum

/-- The ranking step shared verbatim by all three modes (source lines
40-47, 86-96, 110-117): iterate the rows, skip the reference identifier,
pair each remaining id with its (squared) distance to the reference, sort
ascending by distance with a stable sort, truncate to `n` and keep the
ids. -/
def rankRows (df : DataFrame) (identifier : String) (key : Row → ℚ)
    (n : Nat) : List String :=
  let dists := (df.rows.filter (fun r => r.id != identifier)).map
    (fun r => (r.id, key r))
  ((dists.insertionSort (fun a b => a.2 ≤ b.2)).take n).map Prod.fst

/-- The `metric_ops.yaml` options mapping, restricted to the keys the code
reads.  `class` and `n` are indexed unconditionally, so they are plain
fields; `weights` and `exclusive_weights` may be absent. -/
structure Ops where
  clss : String
  n : Nat
  weights : Option (List (String × ℚ))
  exclusive_weights : Option Bool

/-- The dict-update loop of source lines 77-80: for each `(key, value)` of
the weight map, if `clss ++ "_" ++ key` is a data column, set its weight. -/
def weightUpdates (clss : String) (dcols : List String)
    (wmap : List (String × ℚ)) (base : String → Option ℚ) :
    String → Option ℚ :=
  wmap.foldl (fun f kv =>
    let cn := clss ++ "_" ++ kv.1
    if cn ∈ dcols then (fun c => if c = cn then some kv.2 else f c) else f)
    base

/-- The weight dictionary of source lines 72-80 read through
`weights.get(col, 1)` (line 90).  The default dict maps every data column
to 1; if `weights` is present, `ops['exclusive_weights']` is indexed (a
`KeyError` when absent), a literal `True` empties the dict, and the weight
map's entries are written over it; unassigned columns fall back to the
`get` default 1. -/
def effectiveWeights (clss : String) (dcols : List String) (ops : Ops) :
    Except DMLError (String → ℚ) :=
  let defaultW : String → Option ℚ :=
    fun c => if c ∈ dcols then some 1 else none
  match ops.weights with
  | none => .ok (fun c => (defaultW c).getD 1)
  | some wmap =>
    match ops.exclusive_weights with
    | none => .error (.keyError "exclusive_weights")
    | some ex =>
      let base : String → Option ℚ := if ex then (fun _ => none) else defaultW
      .ok (fun c => (weightUpdates clss dcols wmap base c).getD 1)

/-- Tail of `find_n_most_similar` after column selection (source lines
39-47): locate the reference row and rank the others by unweighted squared
distance over the standardized columns. -/
def finishRank (df : DataFrame) (identifier : String) (cols : List String)
    (n : Nat) : Except DMLError (List String) :=
  match firstRowWithId df identifier with
  | none => .error .notFound
  | some ref => .ok (rankRows df identifier (plainSqDist cols df ref) n)

/-- `find_n_most_similar` (source lines 11-47).  With a metric, the column
`clss ++ "_" ++ metric` must exist (else the `ValueError` of line 29) and
is standardized alone; otherwise all class columns are standardized.  The
scaler rejects nulls in the selected columns. -/
def find_n_most_similar (identifier : String) (df : DataFrame)
    (metric : Option String) (n : Nat) (clss : String) :
    Except DMLError (List String) :=
  let descriptors_columns := classColumns df clss
  match metric with
  | some m =>
    let full := clss ++ "_" ++ m
    if full ∈ df.cols then
      if anyNullIn df [full] then .error .scalerError
      else finishRank df identifier [full] n
    else .error (.configError full)
  | none =>
    if anyNullIn df descriptors_columns then .error .scalerError
    else finishRank df identifier descriptors_columns n

/-- `find_n_most_similar_weighted` (source lines 49-96).  Order of
effects as in the source: standardize the class columns (line 67), build
the weight dict (lines 72-80, indexing `ops['exclusive_weights']` when
`weights` is present), locate the reference row (line 83), reject a
reference row with any null cell (lines 84-85), then rank by weighted
squared distance. -/
def find_n_most_similar_weighted (identifier : String) (df : DataFrame)
    (ops : Ops) : Except DMLError (List String) :=
  let clss := ops.clss
  let n := ops.n
  let data_columns := classColumns df clss
  if anyNullIn df data_columns then .error .scalerError
  else
    match effectiveWeights clss data_columns ops with
    | .error e => .error e
    | .ok w =>
      match firstRowWithId df identifier with
      | none => .error .notFound
      | some sound_data =>
        if rowHasNull df.cols sound_data then .error .invalidRow
        else .ok (rankRows df identifier
          (weightedSqDist data_columns df sound_data w) n)

/-- `find_n_most_similar_classifications` (source lines 99-117): selected
raw columns, no standardization, euclidean distance. -/
def find_n_most_similar_classifications (identifier : String)
    (df : DataFrame) (classification_category : Option String) (n : Nat)
    (clss : String) : Except DMLError (List String) :=
  let columns_to_compare :=
    match classification_category with
    | some cat => df.cols.filter (fun c => strHasTok c clss && strHasTok c cat)
    | none => classColumns df clss
  match firstRowWithId df identifier with
  | none => .error .notFound
  | some sound_data =>
    .ok (rankRows df identifier (rawSqDist columns_to_compare sound_data) n)

/-- `df_copy = df_copy[~df_copy['id'].isin(used_files)]` (line 124). -/
def dropUsed (df : DataFrame) (used_files : List String) : DataFrame :=
  ⟨df.cols, df.rows.filter (fun r => !(used_files.contains r.id))⟩

/-- `find_n_most_similar_for_a_file` (source lines 119-131).  The weighted
branch calls `find_n_most_similar_weighted` but has no `return`
statement, so when that call succeeds the function returns Python's
`None`, modelled as `some`-less `.ok none`; the other branches return the
list. -/
def find_n_most_similar_for_a_file (used_files : List String) (id : String)
    (df : DataFrame) (metric : Option String) (n : Nat) (clss : String)
    (ops : Option Ops) : Except DMLError (Option (List String)) :=
  let df_copy := dropUsed df used_files
  if clss = "classifications" then
    (find_n_most_similar_classifications id df_copy none n clss).map some
  else
    match ops with
    | some o => (find_n_most_similar_weighted id df_copy o).map (fun _ => none)
    | none => (find_n_most_similar id df_copy metric n clss).map some

/-- The mutable state of the main loop: `all_files` (not yet popped /
regrouped) and `used_files` (grouped). -/
structure BatchState where
  allFiles : List String
  usedFiles : List String
deriving DecidableEq

/-- Python `set.update`: duplicate-free union of two lists. -/
def setUnion (a b : List String) : List String :=
  a ++ (b.dedup.filter (fun x => !(a.contains x)))

/-- `process_batch` (source lines 133-143).  With a fixed identifier the
primary is that identifier and `all_files` is untouched; otherwise the
primary is popped (head of the list).  A `None` from the missing-return
weighted branch makes `len(similar_files)` raise `TypeError`.  Then
`used_files.update(similar_files)` and
`all_files.difference_update(used_files)`. -/
def process_batch (df : DataFrame) (metric : Option String) (n : Nat)
    (clss : String) (idOpt : Option String) (ops : Option Ops)
    (s : BatchState) : Except DMLError BatchState :=
  let pick : Except DMLError (String × List String) :=
    match idOpt with
    | some i => .ok (i, s.allFiles)
    | none =>
      match s.allFiles with
      | [] => .error .popEmpty
      | p :: rest => .ok (p, rest)
  match pick with
  | .error e => .error e
  | .ok (primary, remAfterPop) =>
    match find_n_most_similar_for_a_file s.usedFiles primary df metric n
        clss ops with
    | .error e => .error e
    | .ok none => .error .typeError
    | .ok (some similar_files) =>
      let used' := setUnion s.usedFiles similar_files
      .ok ⟨remAfterPop.filter (fun x => !(used'.contains x)), used'⟩

/-- The guard of the main loop (line 194):
`while all_files and len(used_files) < n_max`. -/
def loopCond (nMax : Nat) (s : BatchState) : Bool :=
  !s.allFiles.isEmpty && decide (s.usedFiles.length < nMax)

/-- `k` turns of the main loop (lines 194-195).  A batch error aborts the
run (absorbing `.error`); once the guard is false the state is final. -/
def loopIter (df : DataFrame) (metric : Option String) (n : Nat)
    (clss : String) (idOpt : Option String) (ops : Option Ops)
    (nMax : Nat) : Nat → BatchState → Except DMLError BatchState
  | 0, s => .ok s
  | k + 1, s =>
    if loopCond nMax s then
      match process_batch df metric n clss idOpt ops s with
      | .error e => .error e
      | .ok s2 => loopIter df metric n clss idOpt ops nMax k s2
    else .ok s

/-- The loop is no longer running after `k` turns: either a batch failed
(the run aborted) or the guard became false. -/
def loopExited (df : DataFrame) (metric : Option String) (n : Nat)
    (clss : String) (idOpt : Option String) (ops : Option Ops) (nMax : Nat)
    (k : Nat) (s : BatchState) : Prop :=
  match loopIter df metric n clss idOpt ops nMax k s with
  | .error _ => True
  | .ok s2 => loopCond nMax s2 = false

/-- The loop never stops: after every number of turns it has neither
aborted nor made the guard false. -/
def loopNeverExits (df : DataFrame) (metric : Option String) (n : Nat)
    (clss : String) (idOpt : Option String) (ops : Option Ops) (nMax : Nat)
    (s : BatchState) : Prop :=
  ∀ k, ¬ loopExited df metric n clss idOpt ops nMax k s

/-! ## Concrete tables and option mappings used as test inputs -/

/-- A two-item corpus: one `stats` column with values 0 and 2. -/
def dfTwo : DataFrame :=
  ⟨["stats_v"],
   [⟨"A", fun c => if c = "stats_v" then some 0 else none⟩,
    ⟨"B", fun c => if c = "stats_v" then some 2 else none⟩]⟩

/-- A four-item corpus: one `stats` column with values 0, 2, 2, 0; mean 1
and population variance 1, so the standardized values are -1, 1, 1, -1. -/
def dfFour : DataFrame :=
  ⟨["stats_v"],
   [⟨"f1", fun c => if c = "stats_v" then some 0 else none⟩,
    ⟨"f2", fun c => if c = "stats_v" then some 2 else none⟩,
    ⟨"f3", fun c => if c = "stats_v" then some 2 else none⟩,
    ⟨"f4", fun c => if c = "stats_v" then some 0 else none⟩]⟩

/-- A table whose first row has a null only in the non-`stats` column
`other_v`; the `stats` column is fully populated. -/
def dfNullOther : DataFrame :=
  ⟨["stats_v", "other_v"],
   [⟨"f1", fun c => if c = "stats_v" then some 0 else none⟩,
    ⟨"f2", fun c =>
      if c = "stats_v" then some 2
      else if c = "other_v" then some 5 else none⟩]⟩

/-- A one-item corpus. -/
def dfOne : DataFrame :=
  ⟨["stats_x"], [⟨"A", fun c => if c = "stats_x" then some 0 else none⟩]⟩

/-- A two-item corpus with one classification column. -/
def dfClass : DataFrame :=
  ⟨["classifications_c"],
   [⟨"f1", fun c => if c = "classifications_c" then some 1 else none⟩,
    ⟨"f2", fun c => if c = "classifications_c" then some 2 else none⟩]⟩

/-- Options selecting `exclusive_weights: true` with an empty weight map. -/
def opsExclusiveEmpty : Ops := ⟨"stats", 3, some [], some true⟩

/-- Options with neither a `weights` nor an `exclusive_weights` key. -/
def opsPlain : Ops := ⟨"stats", 5, none, none⟩

/-- Options with a `weights` key but no `exclusive_weights` key. -/
def opsMissingKey : Ops := ⟨"stats", 5, some [("v", 2)], none⟩

/-! ## Support lemmas -/

/-- Justification of the squared-distance modelling, half one: on
nonnegative arguments the source's final `np.sqrt` preserves the `≤`
comparisons its sort performs, so sorting by the squared distance yields
the order the source sorts in. -/
theorem sqrt_le_sqrt_iff_of_nonneg (a b : ℚ) (ha : 0 ≤ a) (hb : 0 ≤ b) :
    (Real.sqrt (a : ℝ) ≤ Real.sqrt (b : ℝ) ↔ a ≤ b) := by
  rw [Real.sqrt_le_sqrt_iff (by exact_mod_cast hb)]
  exact_mod_cast Iff.rfl

/-- Justification of the squared-distance modelling, half two: a distance
computed by the source is zero exactly when the squared distance carried
by the embedding is zero. -/
theorem sqrt_eq_zero_iff_of_nonneg (a : ℚ) (ha : 0 ≤ a) :
    (Real.sqrt (a : ℝ) = 0 ↔ a = 0) := by
  rw [Real.sqrt_eq_zero']
  constructor
  · intro h
    exact_mod_cast le_antisymm h (by exact_mod_cast ha)
  · intro h
    simp [h]

/-- Justification of the squared-distance modelling, half three: the
square of a weighted standardized difference `((x - y) / stdev) * w` is
`((x - y) * w) ^ 2 / variance`, the rational quantity the embedding
computes (`stdev = Real.sqrt v`, `variance = v`). -/
theorem weighted_std_diff_sq (x y w : ℝ) (v : ℚ) (hv : 0 ≤ v) :
    ((x - y) / Real.sqrt (v : ℝ) * w) ^ 2 = ((x - y) * w) ^ 2 / (v : ℝ) := by
  rcases eq_or_lt_of_le hv with h | h
  · rw [← h]
    simp
  · have hvR : (0 : ℝ) < (v : ℝ) := by exact_mod_cast h
    have hs : Real.sqrt (v : ℝ) ^ 2 = (v : ℝ) := Real.sq_sqrt hvR.le
    field_simp

/-- Membership in the modelled `set.update`. -/
theorem mem_setUnion {a b : List String} {x : String} :
    x ∈ setUnion a b ↔ x ∈ a ∨ x ∈ b := by
  unfold setUnion
  simp [List.mem_filter, List.mem_dedup]
  tauto

/-- The ranking step never emits the reference identifier: every pair it
sorts is built from a row whose id differs from the reference. -/
theorem rankRows_not_self (df : DataFrame) (identifier : String)
    (key : Row → ℚ) (n : Nat) : identifier ∉ rankRows df identifier key n := by
  intro h
  unfold rankRows at h
  simp only [List.mem_map] at h
  obtain ⟨p, hp, hfst⟩ := h
  have hp2 := List.mem_of_mem_take hp
  rw [List.mem_insertionSort] at hp2
  simp only [List.mem_map] at hp2
  obtain ⟨r, hr, hpr⟩ := hp2
  rw [List.mem_filter] at hr
  have : r.id ≠ identifier := by
    have := hr.2
    rwa [bne_iff_ne] at this
  apply this
  rw [← hfst, ← hpr]

/-- The ranking step returns exactly `min n (number of rows whose id
differs from the reference)` identifiers. -/
theorem length_rankRows (df : DataFrame) (identifier : String)
    (key : Row → ℚ) (n : Nat) :
    (rankRows df identifier key n).length =
      min n ((df.rows.filter (fun r => r.id != identifier)).length) := by
  unfold rankRows
  simp [List.length_take, List.length_insertionSort]

/-! ## Claims -/

/-- C1: the claim states that with `exclusive_weights = true` and an empty
weight map every column gets weight 0, every candidate's distance is 0 and
the ranking is the candidates in input order.  The code instead reads
weights through `weights.get(col, 1)` (line 90), whose default is 1, so
emptying the dict leaves every unlisted column at weight 1: on `dfFour`
the candidates in input order are `f2, f3, f4`, their squared distances
are 4, 4, 0 (not all 0), and the ranking comes back `f4, f2, f3`, not in
input order.  The second conjunct exhibits the weight the code actually
assigns to the unlisted column: 1, not 0. -/
theorem c1_exclusive_empty_not_zero :
    find_n_most_similar_weighted "f1" dfFour opsExclusiveEmpty =
      .ok ["f4", "f2", "f3"] ∧
    ∃ w, effectiveWeights "stats" (classColumns dfFour "stats")
        opsExclusiveEmpty = .ok w ∧ w "stats_v" = 1 := by
  constructor
  · norm_num [find_n_most_similar_weighted, dfFour, opsExclusiveEmpty,
      classColumns, strHasTok, hasTok, leadMatch, anyNullIn, rowHasNull,
      effectiveWeights, weightUpdates, firstRowWithId, rankRows,
      weightedSqDist, colVar, colMean, colVals, List.insertionSort,
      List.orderedInsert, List.find?, List.filter]
  · exact ⟨_, rfl, rfl⟩

/-- C3: the claim states that in weighted mode
`find_n_most_similar_for_a_file` returns the ordered list computed by
`find_n_most_similar_weighted`.  The weighted branch (line 129) has no
`return` statement, so the function returns `None` even though the
weighted engine itself computed the list `["B"]`. -/
theorem c3_weighted_branch_returns_none :
    find_n_most_similar_for_a_file [] "A" dfTwo none 5 "stats"
      (some opsPlain) = .ok none ∧
    find_n_most_similar_weighted "A" dfTwo opsPlain = .ok ["B"] := by
  constructor
  · norm_num [find_n_most_similar_for_a_file, dropUsed, dfTwo, opsPlain,
      find_n_most_similar_weighted, classColumns, strHasTok, hasTok,
      leadMatch, anyNullIn, rowHasNull, effectiveWeights, weightUpdates,
      firstRowWithId, rankRows, weightedSqDist, colVar, colMean, colVals,
      List.insertionSort, List.orderedInsert, List.find?, List.filter,
      Except.map, (show ¬("stats" = "classifications") by decide)]
  · norm_num [find_n_most_similar_weighted, dfTwo, opsPlain, classColumns,
      strHasTok, hasTok, leadMatch, anyNullIn, rowHasNull,
      effectiveWeights, weightUpdates, firstRowWithId, rankRows,
      weightedSqDist, colVar, colMean, colVals, List.insertionSort,
      List.orderedInsert, List.find?, List.filter]

/-- C8: calling `find_n_most_similar` with a metric string such that
`clss + "_" + metric` is not among the table's columns raises the
`ValueError` of source line 29 (the `ConfigError` of the spec's taxonomy)
instead of returning a ranking. -/
theorem c8_unknown_metric_fails (identifier : String) (df : DataFrame)
    (m : String) (n : Nat) (clss : String)
    (h : (clss ++ "_" ++ m) ∉ df.cols) :
    find_n_most_similar identifier df (some m) n clss =
      .error (.configError (clss ++ "_" ++ m)) := by
  simp [find_n_most_similar, h]

/-- Witness for C8 at a concrete input: `stats_zzz` is not a column of
`dfTwo`. -/
theorem c8_witness :
    find_n_most_similar "A" dfTwo (some "zzz") 5 "stats" =
      .error (.configError ("stats" ++ "_" ++ "zzz")) :=
  c8_unknown_metric_fails "A" dfTwo "zzz" 5 "stats" (by decide)

/-- C10: when the options mapping has a `weights` key but no
`exclusive_weights` key, line 75 indexes `ops['exclusive_weights']`
unconditionally and raises `KeyError` before any distance is computed
(the weight dict is built before the reference row is even located); the
hypothesis on nulls only ensures the earlier standardization step does
not fail first. -/
theorem c10_missing_exclusive_key (identifier : String) (df : DataFrame)
    (ops : Ops) (wmap : List (String × ℚ)) (hw : ops.weights = some wmap)
    (hx : ops.exclusive_weights = none)
    (hs : anyNullIn df (classColumns df ops.clss) = false) :
    find_n_most_similar_weighted identifier df ops =
      .error (.keyError "exclusive_weights") := by
  simp [find_n_most_similar_weighted, effectiveWeights, hw, hx, hs]

/-- Witness for C10 at a concrete input. -/
theorem c10_witness :
    find_n_most_similar_weighted "A" dfTwo opsMissingKey =
      .error (.keyError "exclusive_weights") :=
  c10_missing_exclusive_key "A" dfTwo opsMissingKey [("v", 2)] rfl rfl
    (by decide)

/-- C5: when the reference identifier is present and standardization
succeeds, `find_n_most_similar` (all-columns mode) returns a list of
length exactly `min n (number of rows other than the reference)`; having
fewer than `n` candidates is not an error. -/
theorem c5_result_length (identifier : String) (df : DataFrame) (n : Nat)
    (clss : String) (r : Row)
    (hs : anyNullIn df (classColumns df clss) = false)
    (hr : firstRowWithId df identifier = some r) :
    ∃ l, find_n_most_similar identifier df none n clss = .ok l ∧
      l.length =
        min n ((df.rows.filter (fun r2 => r2.id != identifier)).length) := by
  have hok : find_n_most_similar identifier df none n clss =
      .ok (rankRows df identifier
        (plainSqDist (classColumns df clss) df r) n) := by
    simp [find_n_most_similar, finishRank, hs, hr]
  exact ⟨_, hok, length_rankRows df identifier _ n⟩

/-- Witness for C5 at a concrete input: two rows, one candidate. -/
theorem c5_witness :
    ∃ l, find_n_most_similar "A" dfTwo none 5 "stats" = .ok l ∧
      l.length =
        min 5 ((dfTwo.rows.filter (fun r2 => r2.id != "A")).length) :=
  c5_result_length "A" dfTwo 5 "stats"
    ⟨"A", fun c => if c = "stats_v" then some 0 else none⟩ (by decide) rfl


/-- C6: none of the three ranking modes ever returns the reference
identifier itself: every row whose id equals the reference is skipped
before the distance list is built, in `find_n_most_similar`,
`find_n_most_similar_weighted` and `find_n_most_similar_classifications`
alike. -/
theorem c6_no_self_reference :
    (∀ (identifier : String) (df : DataFrame) (metric : Option String)
        (n : Nat) (clss : String) (l : List String),
      find_n_most_similar identifier df metric n clss = .ok l →
      identifier ∉ l) ∧
    (∀ (identifier : String) (df : DataFrame) (ops : Ops) (l : List String),
      find_n_most_similar_weighted identifier df ops = .ok l →
      identifier ∉ l) ∧
    (∀ (identifier : String) (df : DataFrame) (cat : Option String)
        (n : Nat) (clss : String) (l : List String),
      find_n_most_similar_classifications identifier df cat n clss = .ok l →
      identifier ∉ l) := by
  refine ⟨?_, ?_, ?_⟩
  · intro identifier df metric n clss l h
    unfold find_n_most_similar finishRank at h
    dsimp only at h
    repeat' split at h
    all_goals first
      | exact Except.noConfusion h
      | (rw [Except.ok.injEq] at h; subst h;
         exact rankRows_not_self df identifier _ _)
  · intro identifier df ops l h
    unfold find_n_most_similar_weighted at h
    dsimp only at h
    repeat' split at h
    all_goals first
      | exact Except.noConfusion h
      | (rw [Except.ok.injEq] at h; subst h;
         exact rankRows_not_self df identifier _ _)
  · intro identifier df cat n clss l h
    unfold find_n_most_similar_classifications at h
    dsimp only at h
    repeat' split at h
    all_goals first
      | exact Except.noConfusion h
      | (rw [Except.ok.injEq] at h; subst h;
         exact rankRows_not_self df identifier _ _)

/-- Witness for C6: each of the three modes evaluated at a concrete
input returns a list not containing the reference. -/
theorem c6_witness :
    ("A" ∉ (["B"] : List String)) ∧ ("A" ∉ (["B"] : List String)) ∧
      ("f1" ∉ (["f2"] : List String)) :=
  ⟨c6_no_self_reference.1 "A" dfTwo none 5 "stats" ["B"] (by
      norm_num [find_n_most_similar, finishRank, dfTwo, classColumns,
        strHasTok, hasTok, leadMatch, anyNullIn, rowHasNull, firstRowWithId,
        rankRows, plainSqDist, colVar, colMean, colVals, List.insertionSort,
        List.orderedInsert, List.find?, List.filter]),
   c6_no_self_reference.2.1 "A" dfTwo opsPlain ["B"] (by
      norm_num [find_n_most_similar_weighted, dfTwo, opsPlain, classColumns,
        strHasTok, hasTok, leadMatch, anyNullIn, rowHasNull,
        effectiveWeights, weightUpdates, firstRowWithId, rankRows,
        weightedSqDist, colVar, colMean, colVals, List.insertionSort,
        List.orderedInsert, List.find?, List.filter]),
   c6_no_self_reference.2.2 "f1" dfClass none 5 "classifications" ["f2"] (by
      norm_num [find_n_most_similar_classifications, dfClass, classColumns,
        strHasTok, hasTok, leadMatch, firstRowWithId, rankRows, rawSqDist,
        List.insertionSort, List.orderedInsert, List.find?, List.filter])⟩

/-- Counterexample to C4 as stated: in `dfNullOther` the reference row
`f1` is null only in `other_v`, which is outside the compared `stats`
columns, yet `find_n_most_similar_weighted` fails with the invalid-row
error, because line 84 checks `sound_data.isnull()` over the whole row,
not over the compared columns. -/
theorem c4_counterexample :
    find_n_most_similar_weighted "f1" dfNullOther opsPlain =
      .error .invalidRow := by
  have h1 : classColumns dfNullOther "stats" = ["stats_v"] := by decide
  have h3 : firstRowWithId dfNullOther "f1" =
      some ⟨"f1", fun c => if c = "stats_v" then some 0 else none⟩ := rfl
  have h4 : rowHasNull dfNullOther.cols
      ⟨"f1", fun c => if c = "stats_v" then some 0 else none⟩ = true := by
    decide
  simp [find_n_most_similar_weighted, opsPlain, h1, h3, h4,
    effectiveWeights, (show anyNullIn dfNullOther ["stats_v"] = false by decide)]

/-- C4 (amended): provided standardization succeeds (no nulls in the
compared columns of any row) and the weight mapping is well-formed,
`find_n_most_similar_weighted` raises the invalid-row error exactly when
the reference record contains a null in ANY column of the table — not
just in the compared columns. -/
theorem c4_null_check_whole_row (identifier : String) (df : DataFrame)
    (ops : Ops) (r : Row)
    (hs : anyNullIn df (classColumns df ops.clss) = false)
    (hwf : ops.weights.isSome → ops.exclusive_weights.isSome)
    (hr : firstRowWithId df identifier = some r) :
    (find_n_most_similar_weighted identifier df ops = .error .invalidRow ↔
      rowHasNull df.cols r = true) := by
  unfold find_n_most_similar_weighted
  dsimp only
  rw [hs]
  simp only [Bool.false_eq_true, if_false]
  have hok : ∃ w, effectiveWeights ops.clss (classColumns df ops.clss) ops =
      .ok w := by
    unfold effectiveWeights
    cases hw : ops.weights with
    | none => exact ⟨_, rfl⟩
    | some wmap =>
      have := hwf (by rw [hw]; rfl)
      cases hx : ops.exclusive_weights with
      | none => rw [hx] at this; cases this
      | some ex => exact ⟨_, rfl⟩
  obtain ⟨w, hw⟩ := hok
  rw [hw, hr]
  cases hnull : rowHasNull df.cols r with
  | true => simp [hnull]
  | false => simp [hnull]

/-- C7: whenever the effective per-column weight is 1 for every compared
column (in particular for a defaulted or explicit all-ones weight map)
and the weighted engine returns a ranking, `find_n_most_similar` in
all-columns mode over the same class and the same `n` returns the very
same ranked identifier list. -/
theorem c7_weighted_all_ones_eq (identifier : String) (df : DataFrame)
    (ops : Ops) (w : String → ℚ) (l : List String)
    (hw : effectiveWeights ops.clss (classColumns df ops.clss) ops = .ok w)
    (h1 : ∀ c ∈ classColumns df ops.clss, w c = 1)
    (hok : find_n_most_similar_weighted identifier df ops = .ok l) :
    find_n_most_similar identifier df none ops.n ops.clss = .ok l := by
  unfold find_n_most_similar_weighted at hok
  dsimp only at hok
  cases hs : anyNullIn df (classColumns df ops.clss) with
  | true => rw [hs] at hok; simp at hok
  | false =>
    rw [hs] at hok
    simp only [Bool.false_eq_true, if_false] at hok
    rw [hw] at hok
    dsimp only at hok
    cases hr : firstRowWithId df identifier with
    | none => rw [hr] at hok; simp at hok
    | some r =>
      rw [hr] at hok
      dsimp only at hok
      cases hnull : rowHasNull df.cols r with
      | true => rw [hnull] at hok; simp at hok
      | false =>
        rw [hnull] at hok
        simp only [Bool.false_eq_true, if_false, Except.ok.injEq] at hok
        have hkey : weightedSqDist (classColumns df ops.clss) df r w =
            plainSqDist (classColumns df ops.clss) df r := by
          funext row
          unfold weightedSqDist plainSqDist
          congr 1
          apply List.map_congr_left
          intro c hc
          rw [h1 c hc, mul_one]
        rw [hkey] at hok
        unfold find_n_most_similar finishRank
        dsimp only
        rw [hs]
        simp only [Bool.false_eq_true, if_false]
        rw [hr]
        dsimp only
        rw [hok]

/-- Witness for C7 at a concrete input: the all-ones weighted ranking of
`dfTwo` equals the unweighted one. -/
theorem c7_witness :
    find_n_most_similar "A" dfTwo none 5 "stats" = .ok ["B"] :=
  c7_weighted_all_ones_eq "A" dfTwo opsPlain
    (fun c => ((if c ∈ classColumns dfTwo "stats" then some (1 : ℚ)
      else none).getD 1))
    ["B"] rfl
    (by
      intro c hc
      by_cases h : c ∈ classColumns dfTwo "stats" <;> simp [h])
    (by
      norm_num [find_n_most_similar_weighted, dfTwo, opsPlain, classColumns,
        strHasTok, hasTok, leadMatch, anyNullIn, rowHasNull,
        effectiveWeights, weightUpdates, firstRowWithId, rankRows,
        weightedSqDist, colVar, colMean, colVals, List.insertionSort,
        List.orderedInsert, List.find?, List.filter])

/-- C2 (amended): after every completed batch the grouped set equals its
previous value united with the returned similar list only — the primary
identifier is NOT added (it is merely popped from the remaining set) —
and the new remaining set is disjoint from the new grouped set and drawn
from the old remaining set.  The claimed identity
`remaining ∪ grouped = all_ids` fails because the popped primary leaves
both sets (see the counterexample). -/
theorem c2_grouped_update (df : DataFrame) (metric : Option String)
    (n : Nat) (clss : String) (idOpt : Option String) (ops : Option Ops)
    (s s' : BatchState)
    (h : process_batch df metric n clss idOpt ops s = .ok s') :
    ∃ primary sim,
      find_n_most_similar_for_a_file s.usedFiles primary df metric n clss
        ops = .ok (some sim) ∧
      (∀ x, x ∈ s'.usedFiles ↔ x ∈ s.usedFiles ∨ x ∈ sim) ∧
      (∀ x, x ∈ s'.allFiles → x ∈ s.allFiles ∧ x ∉ s'.usedFiles) := by
  unfold process_batch at h
  dsimp only at h
  have main : ∀ (primary : String) (rem sup : List String),
      (∀ x, x ∈ rem → x ∈ sup) →
      (match find_n_most_similar_for_a_file s.usedFiles primary df metric n
          clss ops with
        | Except.error e => Except.error e
        | Except.ok none => Except.error DMLError.typeError
        | Except.ok (some similar_files) =>
          Except.ok (⟨rem.filter
              (fun x => !((setUnion s.usedFiles similar_files).contains x)),
            setUnion s.usedFiles similar_files⟩ : BatchState)) = .ok s' →
      ∃ primary sim,
        find_n_most_similar_for_a_file s.usedFiles primary df metric n clss
          ops = .ok (some sim) ∧
        (∀ x, x ∈ s'.usedFiles ↔ x ∈ s.usedFiles ∨ x ∈ sim) ∧
        (∀ x, x ∈ s'.allFiles → x ∈ sup ∧ x ∉ s'.usedFiles) := by
    intro primary rem sup hrem hm
    cases hf : find_n_most_similar_for_a_file s.usedFiles primary df metric
        n clss ops with
    | error e => rw [hf] at hm; simp at hm
    | ok o =>
      cases o with
      | none => rw [hf] at hm; simp at hm
      | some sim =>
        rw [hf] at hm
        simp only [Except.ok.injEq] at hm
        subst hm
        refine ⟨primary, sim, hf, ?_, ?_⟩
        · intro x
          exact mem_setUnion
        · intro x hx
          simp only [List.mem_filter] at hx
          obtain ⟨hx1, hx2⟩ := hx
          refine ⟨hrem x hx1, ?_⟩
          intro hmem
          simp at hx2
          exact absurd hmem hx2
  cases idOpt with
  | some i =>
    exact main i s.allFiles s.allFiles (fun x hx => hx) h
  | none =>
    cases hall : s.allFiles with
    | nil => rw [hall] at h; simp at h
    | cons p rest =>
      rw [hall] at h
      exact main p rest (p :: rest)
        (fun x hx => List.mem_cons_of_mem p hx) h

/-- Evaluation of one batch on the two-item corpus: primary `A` is
popped, `B` is its similar list, and the resulting state is
`allFiles = []`, `usedFiles = ["B"]` — `A` is in neither set. -/
theorem processBatch_two_eval :
    process_batch dfTwo none 5 "stats" none none ⟨["A", "B"], []⟩ =
      .ok ⟨[], ["B"]⟩ := by
  have hff : find_n_most_similar_for_a_file [] "A" dfTwo none 5 "stats" none
      = .ok (some ["B"]) := by
    norm_num [find_n_most_similar_for_a_file, dropUsed, dfTwo,
      find_n_most_similar, finishRank, classColumns, strHasTok, hasTok,
      leadMatch, anyNullIn, rowHasNull, firstRowWithId, rankRows,
      plainSqDist, colVar, colMean, colVals, List.insertionSort,
      List.orderedInsert, List.find?, List.filter, Except.map,
      (show ¬("stats" = "classifications") by decide)]
  simp [process_batch, hff, setUnion, List.dedup, List.pwFilter,
    List.filter, List.foldr]

/-- Counterexample to C2 as stated: after the batch on `dfTwo` the
grouped set is `["B"]` and the remaining set is empty, so the primary `A`
is in neither; the grouped set is not `grouped ∪ similar ∪ {primary}` and
`remaining ∪ grouped` is not the set of all identifiers. -/
theorem c2_counterexample :
    process_batch dfTwo none 5 "stats" none none ⟨["A", "B"], []⟩ =
      .ok ⟨[], ["B"]⟩ ∧ "A" ∉ (["B"] : List String) ∧
      "A" ∉ ([] : List String) :=
  ⟨processBatch_two_eval, by decide, by decide⟩

/-- Witness for C2 (amended) at the concrete two-item batch. -/
theorem c2_witness :
    ∃ primary sim,
      find_n_most_similar_for_a_file [] primary dfTwo none 5 "stats" none =
        .ok (some sim) ∧
      (∀ x, x ∈ (["B"] : List String) ↔ x ∈ ([] : List String) ∨ x ∈ sim) ∧
      (∀ x, x ∈ ([] : List String) → x ∈ (["A", "B"] : List String) ∧
        x ∉ (["B"] : List String)) :=
  c2_grouped_update dfTwo none 5 "stats" none none ⟨["A", "B"], []⟩
    ⟨[], ["B"]⟩ processBatch_two_eval

/-- With a fixed identifier the batch on the one-item corpus is a no-op:
the primary is not popped, no candidates remain, and the state returns
unchanged. -/
theorem processBatch_fixed_eval :
    process_batch dfOne none 5 "stats" (some "A") none ⟨["A"], []⟩ =
      .ok ⟨["A"], []⟩ := by
  have hff : find_n_most_similar_for_a_file [] "A" dfOne none 5 "stats" none
      = .ok (some []) := by
    norm_num [find_n_most_similar_for_a_file, dropUsed, dfOne,
      find_n_most_similar, finishRank, classColumns, strHasTok, hasTok,
      leadMatch, anyNullIn, rowHasNull, firstRowWithId, rankRows,
      plainSqDist, colVar, colMean, colVals, List.insertionSort,
      List.orderedInsert, List.find?, List.filter, Except.map,
      (show ¬("stats" = "classifications") by decide)]
  simp [process_batch, hff, setUnion, List.dedup, List.pwFilter,
    List.filter, List.foldr]

/-- With a fixed identifier on the one-item corpus every number of loop
turns leaves the state unchanged. -/
theorem loopIter_fixed_const (k : Nat) :
    loopIter dfOne none 5 "stats" (some "A") none 1 k ⟨["A"], []⟩ =
      .ok ⟨["A"], []⟩ := by
  induction k with
  | zero => rfl
  | succ k ih =>
    rw [loopIter]
    simp only [(show loopCond 1 ⟨["A"], []⟩ = true from rfl), if_true,
      processBatch_fixed_eval]
    exact ih

/-- Counterexample to C9 as stated: with a fixed identifier supplied
(`-id A`) on a one-item corpus, the loop guard stays true and the state
never changes, so the batch loop never exits — the fixed identifier is
never popped nor grouped, so the remaining set never empties and the
grouped count never grows. -/
theorem c9_counterexample :
    loopNeverExits dfOne none 5 "stats" (some "A") none 1 ⟨["A"], []⟩ := by
  intro k h
  unfold loopExited at h
  rw [loopIter_fixed_const k] at h
  dsimp only at h
  exact absurd h (by decide)

/-- Without a fixed identifier every completed batch strictly shrinks
the remaining list: the primary is popped and the rest is only
filtered. -/
theorem pb_none_shrinks (df : DataFrame) (metric : Option String) (n : Nat)
    (clss : String) (ops : Option Ops) (s s' : BatchState)
    (h : process_batch df metric n clss none ops s = .ok s') :
    s'.allFiles.length < s.allFiles.length := by
  unfold process_batch at h
  dsimp only at h
  cases hall : s.allFiles with
  | nil => rw [hall] at h; simp at h
  | cons p rest =>
    rw [hall] at h
    dsimp only at h
    cases hf : find_n_most_similar_for_a_file s.usedFiles p df metric n
        clss ops with
    | error e => rw [hf] at h; simp at h
    | ok o =>
      cases o with
      | none => rw [hf] at h; simp at h
      | some sim =>
        rw [hf] at h
        simp only [Except.ok.injEq] at h
        subst h
        simp only [List.length_cons]
        exact Nat.lt_succ_of_le (List.length_filter_le _ _)

/-- C9 (amended): when no fixed identifier is supplied the batch loop
always stops: after finitely many turns either a batch has failed
(aborting the run) or the guard is false — the remaining set is empty or
the grouped count has reached the configured maximum.  (As stated the
claim is false: with a fixed identifier the loop need not terminate, see
the counterexample.) -/
theorem c9_terminates_without_fixed_id (df : DataFrame)
    (metric : Option String) (n : Nat) (clss : String) (ops : Option Ops)
    (nMax : Nat) (s : BatchState) :
    ∃ k, loopExited df metric n clss none ops nMax k s := by
  have main : ∀ (m : Nat) (s2 : BatchState), s2.allFiles.length ≤ m →
      ∃ k, loopExited df metric n clss none ops nMax k s2 := by
    intro m
    induction m with
    | zero =>
      intro s2 hs0
      refine ⟨0, ?_⟩
      unfold loopExited loopIter
      have hnil : s2.allFiles = [] :=
        List.length_eq_zero.mp (Nat.le_zero.mp hs0)
      simp [loopCond, hnil]
    | succ m ih =>
      intro s2 hsm
      cases hc : loopCond nMax s2 with
      | false =>
        exact ⟨0, by unfold loopExited loopIter; exact hc⟩
      | true =>
        cases hpb : process_batch df metric n clss none ops s2 with
        | error e =>
          refine ⟨1, ?_⟩
          unfold loopExited
          rw [loopIter]
          simp [hc, hpb, loopIter]
        | ok s3 =>
          have hlt := pb_none_shrinks df metric n clss ops s2 s3 hpb
          have hs3 : s3.allFiles.length ≤ m :=
            Nat.lt_succ_iff.mp (lt_of_lt_of_le hlt hsm)
          obtain ⟨k, hk⟩ := ih s3 hs3
          refine ⟨k + 1, ?_⟩
          unfold loopExited
          rw [loopIter]
          simp only [hc, if_true]
          rw [hpb]
          unfold loopExited at hk
          exact hk
  exact main s.allFiles.length s le_rfl

/-- Witness for C4 (amended) at a concrete input, where the reference row
is null in a column outside the compared set. -/
theorem c4_witness :
    (find_n_most_similar_weighted "f1" dfNullOther opsPlain =
        .error .invalidRow ↔
      rowHasNull dfNullOther.cols
        ⟨"f1", fun c => if c = "stats_v" then some 0 else none⟩ = true) :=
  c4_null_check_whole_row "f1" dfNullOther opsPlain
    ⟨"f1", fun c => if c = "stats_v" then some 0 else none⟩ (by decide)
    (by decide) rfl
